import Mathlib

/-!
Shallow embedding of the gridly-mcp-server (src/index.ts): the JSON data
model used for argument bags and request bodies, a model of JavaScript's
JSON.stringify / encodeURIComponent, the zod validation schemas, the
per-tool remote-call request builders, and the tool dispatch handler.
-/

set_option maxRecDepth 4000

/-- A JSON value: the shape of argument bags, request bodies and remote
response bodies.  Numbers are modelled as integers (every number in the
claims is integral). -/
inductive JsonVal where
  | str (s : String)
  | num (n : Int)
  | bool (b : Bool)
  | null
  | arr (xs : List JsonVal)
  | obj (kvs : List (String × JsonVal))

/-- Hex digit (lowercase), used by the JSON string escaper. -/
def hexDigitLower (n : Nat) : Char :=
  if n < 10 then Char.ofNat (48 + n) else Char.ofNat (87 + n)

/-- Hex digit (uppercase), used by encodeURIComponent. -/
def hexDigitUpper (n : Nat) : Char :=
  if n < 10 then Char.ofNat (48 + n) else Char.ofNat (55 + n)

/-- Decimal digit character. -/
def digitChar : Nat → Char
  | 0 => '0' | 1 => '1' | 2 => '2' | 3 => '3' | 4 => '4'
  | 5 => '5' | 6 => '6' | 7 => '7' | 8 => '8' | 9 => '9'
  | _ => '0'

/-- Decimal digit accumulation with an explicit fuel bound (the fuel
never runs out: a number has at most as many digits as its value). -/
def natCharsAux : Nat → Nat → List Char
  | 0, _ => []
  | fuel + 1, n =>
    if n < 10 then [digitChar n]
    else natCharsAux fuel (n / 10) ++ [digitChar (n % 10)]

/-- Decimal digit list of a natural number, most significant first
(model of Number.prototype.toString for naturals). -/
def natChars (n : Nat) : List Char := natCharsAux (n + 1) n

/-- Decimal rendering of a natural number. -/
def natToString (n : Nat) : String := String.mk (natChars n)

/-- Decimal rendering of an integer (model of JS Number → string
interpolation for integral values). -/
def intToString (i : Int) : String :=
  if i < 0 then "-" ++ natToString i.natAbs else natToString i.toNat

/-- Escape of a single character inside a JSON string literal, as
JSON.stringify performs it. -/
def escapeJsonChar (c : Char) : String :=
  if c = '"' then "\\\""
  else if c = '\\' then "\\\\"
  else if c.toNat = 8 then "\\b"
  else if c.toNat = 9 then "\\t"
  else if c.toNat = 10 then "\\n"
  else if c.toNat = 12 then "\\f"
  else if c.toNat = 13 then "\\r"
  else if c.toNat < 32 then
    "\\u00" ++ String.mk [hexDigitLower (c.toNat / 16), hexDigitLower (c.toNat % 16)]
  else String.singleton c

/-- JSON string literal of a string, quotes included. -/
def quoteStr (s : String) : String :=
  "\"" ++ String.join (s.data.map escapeJsonChar) ++ "\""

mutual

/-- Model of JSON.stringify on a JSON value (compact form, insertion
order preserved). -/
def jsonStringify : JsonVal → String
  | .str s => quoteStr s
  | .num n => intToString n
  | .bool b => if b then "true" else "false"
  | .null => "null"
  | .arr xs => "[" ++ jsonStringifyList xs ++ "]"
  | .obj kvs => "\x7b" ++ jsonStringifyPairs kvs ++ "\x7d"

/-- Comma-separated serialization of array elements. -/
def jsonStringifyList : List JsonVal → String
  | [] => ""
  | [x] => jsonStringify x
  | x :: y :: rest => jsonStringify x ++ "," ++ jsonStringifyList (y :: rest)

/-- Comma-separated serialization of object entries. -/
def jsonStringifyPairs : List (String × JsonVal) → String
  | [] => ""
  | [(k, v)] => quoteStr k ++ ":" ++ jsonStringify v
  | (k, v) :: p :: rest =>
    quoteStr k ++ ":" ++ jsonStringify v ++ "," ++ jsonStringifyPairs (p :: rest)

end

/-- Model of JSON.stringify on a JS object literal some of whose values
may be `undefined` (`none`): JSON.stringify drops entries whose value is
undefined. -/
def jsonStringifyObjU (kvs : List (String × Option JsonVal)) : String :=
  jsonStringify (.obj (kvs.filterMap (fun kv => kv.2.map (fun v => (kv.1, v)))))

/-- Characters encodeURIComponent leaves unescaped. -/
def encSafeChar (c : Char) : Bool :=
  c.isAlphanum || c = '-' || c = '_' || c = '.' || c = '!' || c = '~' ||
    c = '*' || c.toNat = 39 || c = '(' || c = ')'

/-- UTF-8 byte sequence of a code point. -/
def utf8Bytes (n : Nat) : List Nat :=
  if n < 128 then [n]
  else if n < 2048 then [192 + n / 64, 128 + n % 64]
  else if n < 65536 then [224 + n / 4096, 128 + (n / 64) % 64, 128 + n % 64]
  else [240 + n / 262144, 128 + (n / 4096) % 64, 128 + (n / 64) % 64, 128 + n % 64]

/-- Percent-encoding of one byte, uppercase hex. -/
def pctByte (b : Nat) : String :=
  "%" ++ String.mk [hexDigitUpper (b / 16), hexDigitUpper (b % 16)]

/-- Model of JavaScript's encodeURIComponent. -/
def encodeURIComponent (s : String) : String :=
  String.join (s.data.map (fun c =>
    if encSafeChar c then String.singleton c
    else String.join ((utf8Bytes c.toNat).map pctByte)))

/-- Characters the URLSearchParams serializer (application/x-www-form-urlencoded)
leaves unescaped (space, mapped to +, handled separately). -/
def formSafeChar (c : Char) : Bool :=
  c.isAlphanum || c = '*' || c = '-' || c = '.' || c = '_'

/-- Model of the URLSearchParams value serializer used by
`url.searchParams.append`. -/
def formUrlEncode (s : String) : String :=
  String.join (s.data.map (fun c =>
    if formSafeChar c then String.singleton c
    else if c = ' ' then "+"
    else String.join ((utf8Bytes c.toNat).map pctByte)))

/-- An outbound HTTP request as the source builds it: method, full URL,
optional JSON body string. -/
structure HttpRequest where
  method : String
  url : String
  body : Option String
deriving DecidableEq, Repr

/-- A remote response: status code and parsed JSON body. -/
structure HttpResponse where
  status : Nat
  body : JsonVal

/-- The network oracle: what the remote API answers to each request. -/
def Net : Type := HttpRequest → HttpResponse

/-- Fixed remote API base address (src/index.ts line 11). -/
def API_BASE : String := "https://api.gridly.com/v1"

/-! ## Validation schema model (zod schemas of src/index.ts lines 29-189) -/

/-- Field value type in a zod object schema, flattened to the shapes the
source actually uses. -/
inductive ZType where
  | znum                      -- z.number()
  | zstr                      -- z.string()
  | zenum (vals : List String)  -- z.enum([...])
  | zarrayStr                 -- z.array(z.string())
  | zarrayColumn              -- z.array(columnSchema)
  | zarrayRecord              -- z.array(recordSchema)
  | zrecordAny                -- z.record(z.any())
  | zpage                     -- pageSchema: z.object of offset, limit numbers
  | zsort                     -- sortSchema: z.record(z.string(), z.enum([asc, desc]))
deriving DecidableEq, Repr

/-- One field of a zod object schema: key name, describe-string,
optional flag, value type. -/
structure ZField where
  name : String
  desc : String
  opt : Bool
  ty : ZType
deriving DecidableEq, Repr

/-- First-match lookup of a key in an argument bag / JSON object. -/
def lookupField : List (String × JsonVal) → String → Option JsonVal
  | [], _ => none
  | (k, v) :: rest, key => if k = key then some v else lookupField rest key

/-- Does a JSON value satisfy columnSchema (id string, editable boolean)? -/
def columnOk (v : JsonVal) : Bool :=
  match v with
  | .obj kvs =>
    (match lookupField kvs "id" with | some (.str _) => true | _ => false) &&
    (match lookupField kvs "editable" with | some (.bool _) => true | _ => false)
  | _ => false

/-- Does a JSON value satisfy cellSchema (columnId string, value string)? -/
def cellOk (v : JsonVal) : Bool :=
  match v with
  | .obj kvs =>
    (match lookupField kvs "columnId" with | some (.str _) => true | _ => false) &&
    (match lookupField kvs "value" with | some (.str _) => true | _ => false)
  | _ => false

/-- Does a JSON value satisfy recordSchema (optional id and path strings,
cells array of cellSchema)? -/
def recordOk (v : JsonVal) : Bool :=
  match v with
  | .obj kvs =>
    (match lookupField kvs "id" with
     | some (.str _) => true | none => true | _ => false) &&
    (match lookupField kvs "path" with
     | some (.str _) => true | none => true | _ => false) &&
    (match lookupField kvs "cells" with
     | some (.arr cs) => cs.all cellOk | _ => false)
  | _ => false

/-- Is a JSON value a string? -/
def isStrVal (v : JsonVal) : Bool :=
  match v with | .str _ => true | _ => false

/-- Is a sort direction value one of the two enum literals? -/
def sortDirOk (v : JsonVal) : Bool :=
  match v with | .str s => s = "asc" || s = "desc" | _ => false

/-- Does an object have a numeric field of the given name? -/
def numField (kvs : List (String × JsonVal)) (k : String) : Bool :=
  match lookupField kvs k with | some (.num _) => true | _ => false

/-- Acceptance of a JSON value at a field type, mirroring zod runtime
validation. -/
def valAccepts : ZType → JsonVal → Bool
  | .znum, v => match v with | .num _ => true | _ => false
  | .zstr, v => isStrVal v
  | .zenum vals, v => match v with | .str s => vals.contains s | _ => false
  | .zarrayStr, v => match v with | .arr xs => xs.all isStrVal | _ => false
  | .zarrayColumn, v => match v with | .arr xs => xs.all columnOk | _ => false
  | .zarrayRecord, v => match v with | .arr xs => xs.all recordOk | _ => false
  | .zrecordAny, v => match v with | .obj _ => true | _ => false
  | .zpage, v => match v with
    | .obj kvs => numField kvs "offset" && numField kvs "limit"
    | _ => false
  | .zsort, v => match v with
    | .obj kvs => kvs.all (fun kv => sortDirOk kv.2)
    | _ => false

/-- Does an argument bag satisfy one schema field?  A missing key passes
exactly when the field is optional (zod .optional()). -/
def fieldOk (bag : List (String × JsonVal)) (f : ZField) : Bool :=
  match lookupField bag f.name with
  | some v => valAccepts f.ty v
  | none => f.opt

/-- Does an argument bag satisfy a whole zod object schema (extra keys
are ignored, as zod strips them)? -/
def bagAccepts (fields : List ZField) (bag : List (String × JsonVal)) : Bool :=
  fields.all (fieldOk bag)

/-- Reason text of a field violation, mirroring the zod issue message
kinds (missing required field vs. wrong shape). -/
def fieldReason (bag : List (String × JsonVal)) (f : ZField) : String :=
  match lookupField bag f.name with
  | none => "Required"
  | some _ =>
    match f.ty with
    | .znum => "Expected number"
    | .zstr => "Expected string"
    | .zenum _ => "Invalid enum value"
    | .zarrayStr => "Expected array of strings"
    | .zarrayColumn => "Expected array of columns"
    | .zarrayRecord => "Expected array of records"
    | .zrecordAny => "Expected object"
    | .zpage => "Expected page object"
    | .zsort => "Expected sort record"

/-- One validation issue: violated field and its reason. -/
structure ZIssue where
  path : String
  msg : String
deriving DecidableEq, Repr

/-- All validation issues of a bag against an object schema: zod checks
every field of the object and accumulates every violation. -/
def objIssues (fields : List ZField) (bag : List (String × JsonVal)) : List ZIssue :=
  fields.filterMap (fun f =>
    if fieldOk bag f then none else some ⟨f.name, fieldReason bag f⟩)

/-- Rendering of a zod issue array, as JSON.stringify(error.errors)
serializes it in the catch block (src/index.ts line 842). -/
def renderIssues (issues : List ZIssue) : String :=
  jsonStringify (.arr (issues.map (fun i =>
    .obj [("path", .arr [.str i.path]), ("message", .str i.msg)])))

/-- Mark every field of a schema optional: model of zod .partial(). -/
def makeOptional (fields : List ZField) : List ZField :=
  fields.map (fun f => { f with opt := true })

/-! ## The per-tool schemas (src/index.ts lines 29-189) -/

/-- projectIdSchema (line 29). -/
def projectIdSchema : List ZField :=
  [⟨"projectId", "Please provide the project ID", false, .znum⟩]

/-- optionalProjectIdSchema (line 33). -/
def optionalProjectIdSchema : List ZField :=
  [⟨"projectId", "Please provide the project ID (optional)", true, .znum⟩]

/-- databaseIdSchema (line 40). -/
def databaseIdSchema : List ZField :=
  [⟨"databaseId", "Please provide the database ID", false, .zstr⟩]

/-- gridIdSchema (line 44). -/
def gridIdSchema : List ZField :=
  [⟨"gridId", "Please provide the grid ID", false, .zstr⟩]

/-- gridMetadataSchema (line 48). -/
def gridMetadataSchema : List ZField :=
  [⟨"metadata", "Metadata object containing properties of the grid. Passing null into value will remove that key-value property (Optional)", true, .zrecordAny⟩]

/-- columnIdSchema (line 57). -/
def columnIdSchema : List ZField :=
  [⟨"columnId", "Please provide the column ID", false, .zstr⟩]

/-- viewIdSchema (line 66). -/
def viewIdSchema : List ZField :=
  [⟨"viewId", "ID of the view. It can be found in the API quick start right panel of your Gridly Dashboard", false, .zstr⟩]

/-- recordIdSchema (line 74). -/
def recordIdSchema : List ZField :=
  [⟨"recordId", "Id of the record to getting history", false, .zstr⟩]

/-- dependencyIdSchema (line 78). -/
def dependencyIdSchema : List ZField :=
  [⟨"dependencyId", "Please provide the dependency ID", false, .zstr⟩]

/-- viewColumnSchema = viewIdSchema.merge(columnIdSchema) (line 82). -/
def viewColumnSchema : List ZField := viewIdSchema ++ columnIdSchema

/-- viewDependencySchema = viewIdSchema.merge(dependencyIdSchema) (line 84). -/
def viewDependencySchema : List ZField := viewIdSchema ++ dependencyIdSchema

/-- createGridSchema (line 86): databaseId, name, optional templateGridId,
optional metadata. -/
def createGridSchema : List ZField :=
  databaseIdSchema ++
  [⟨"name", "Please provide the grid name", false, .zstr⟩,
   ⟨"templateGridId", "Please provide the template grid ID (Optional)", true, .zstr⟩] ++
  gridMetadataSchema

/-- updateGridSchema (line 96): gridId, name, optional metadata. -/
def updateGridSchema : List ZField :=
  gridIdSchema ++
  [⟨"name", "Please provide the grid name", false, .zstr⟩] ++
  gridMetadataSchema

/-- createViewSchema (line 102): name, gridId, optional columns. -/
def createViewSchema : List ZField :=
  [⟨"name", "View name", false, .zstr⟩] ++ gridIdSchema ++
  [⟨"columns", "List of columns (Optional)", true, .zarrayColumn⟩]

/-- typeEnum (line 111): the fifteen column kinds. -/
def typeEnum : List String :=
  ["singleLine", "multipleLines", "richText", "markdown", "singleSelection",
   "multipleSelections", "boolean", "number", "datetime", "files",
   "reference", "language", "formula", "json", "yaml"]

/-- createColumnSchema (line 129): viewId, optional id, name, type. -/
def createColumnSchema : List ZField :=
  viewIdSchema ++
  [⟨"id", "Column ID (Optional)", true, .zstr⟩,
   ⟨"name", "Please provide the column name", false, .zstr⟩,
   ⟨"type", "Please provide the column type", false, .zenum typeEnum⟩]

/-- addRecordsSchema (line 155): viewId, records. -/
def addRecordsSchema : List ZField :=
  viewIdSchema ++ [⟨"records", "", false, .zarrayRecord⟩]

/-- deleteRecordsSchema (line 160): viewId, ids. -/
def deleteRecordsSchema : List ZField :=
  viewIdSchema ++
  [⟨"ids", "List of record IDs need to be deleted", false, .zarrayStr⟩]

/-- listRecordsSchema (line 175): viewId, optional columnIds, page, sort. -/
def listRecordsSchema : List ZField :=
  viewIdSchema ++
  [⟨"columnIds", "Specify data of what columns of view to include in response", true, .zarrayStr⟩,
   ⟨"page", "Starting index and number of records", true, .zpage⟩,
   ⟨"sort", "Order of records", true, .zsort⟩]

/-- getRecordHistorySchema (line 185): viewId, recordId, optional page. -/
def getRecordHistorySchema : List ZField :=
  viewIdSchema ++ recordIdSchema ++ [⟨"page", "", true, .zpage⟩]

/-! ## Tool catalog and runtime validator registry (lines 495-600, 602-846) -/

/-- The static catalog returned by the ListTools handler (lines 495-600):
tool name paired with the zod schema its advertised inputSchema was
generated from.  list_projects advertises the literal empty object
schema. -/
def advertisedCatalog : List (String × List ZField) :=
  [("list_projects", []),
   ("retrieve_project", projectIdSchema),
   ("list_databases", optionalProjectIdSchema),
   ("retrieve_database", databaseIdSchema),
   ("retrieve_grid", gridIdSchema),
   ("create_grid", createGridSchema),
   ("update_grid", updateGridSchema),
   ("delete_grid", gridIdSchema),
   ("retrieve_view", viewIdSchema),
   ("create_view", createViewSchema),
   ("retrieve_column", viewColumnSchema),
   ("create_column", createColumnSchema),
   ("delete_column", viewColumnSchema),
   ("list_dependencies", viewIdSchema),
   ("retrieve_dependency", viewDependencySchema),
   ("delete_dependency", viewDependencySchema),
   ("add_records", addRecordsSchema),
   ("delete_records", deleteRecordsSchema),
   ("list_records", listRecordsSchema),
   ("get_record_history", getRecordHistorySchema)]

/-- The registered tool names, in catalog order. -/
def toolNames : List String := advertisedCatalog.map Prod.fst

/-- Runtime validation behaviour of one CallTool switch case: either no
parse call at all (list_projects) or a parse against a zod object
schema. -/
inductive RuntimeVal where
  | noCheck
  | check (fields : List ZField)
deriving DecidableEq, Repr

/-- The validator each CallTool switch case applies (lines 602-846), in
switch order.  list_databases parses with projectIdSchema.partial(). -/
def runtimeRegistry : List (String × RuntimeVal) :=
  [("list_projects", .noCheck),
   ("retrieve_project", .check projectIdSchema),
   ("list_databases", .check (makeOptional projectIdSchema)),
   ("retrieve_database", .check databaseIdSchema),
   ("retrieve_grid", .check gridIdSchema),
   ("create_grid", .check createGridSchema),
   ("update_grid", .check updateGridSchema),
   ("delete_grid", .check gridIdSchema),
   ("retrieve_view", .check viewIdSchema),
   ("create_view", .check createViewSchema),
   ("retrieve_column", .check viewColumnSchema),
   ("create_column", .check createColumnSchema),
   ("delete_column", .check viewColumnSchema),
   ("list_dependencies", .check viewIdSchema),
   ("retrieve_dependency", .check viewDependencySchema),
   ("delete_dependency", .check viewDependencySchema),
   ("list_records", .check listRecordsSchema),
   ("add_records", .check addRecordsSchema),
   ("delete_records", .check deleteRecordsSchema),
   ("get_record_history", .check getRecordHistorySchema)]

/-- Assoc-list lookup over the runtime registry, comparing the invoked
name against each registered case name as the switch does. -/
def lookupReg : List (String × RuntimeVal) → String → Option RuntimeVal
  | [], _ => none
  | (k, v) :: rest, key => if key = k then some v else lookupReg rest key

/-- The validator the CallTool handler applies to a tool name: the
switch case's parse call, or none for an unknown name (default case). -/
def runtimeValidation (name : String) : Option RuntimeVal :=
  lookupReg runtimeRegistry name

/-- Bag acceptance of a runtime validator. -/
def runtimeAccepts (rv : RuntimeVal) (bag : List (String × JsonVal)) : Bool :=
  match rv with
  | .noCheck => true
  | .check fields => bagAccepts fields bag

/-! ## Remote call functions (src/index.ts lines 191-493), modelled as
the single HTTP request each one issues plus, for delete endpoints, the
success flag computed from the response. -/

/-- Validated pagination object (pageSchema). -/
structure Page where
  offset : Int
  limit : Int
deriving DecidableEq, Repr

/-- JSON object a validated page parses back to, in schema key order. -/
def pageToJson (p : Page) : JsonVal :=
  .obj [("offset", .num p.offset), ("limit", .num p.limit)]

/-- Validated sort record: column id to direction, in input key order. -/
def sortToJson (s : List (String × String)) : JsonVal :=
  .obj (s.map (fun kv => (kv.1, .str kv.2)))

/-- Validated column object (columnSchema). -/
structure ColumnArg where
  id : String
  editable : Bool
deriving DecidableEq, Repr

/-- JSON array a validated columns list serializes to. -/
def columnsToJson (cols : List ColumnArg) : JsonVal :=
  .arr (cols.map (fun c => .obj [("id", .str c.id), ("editable", .bool c.editable)]))

/-- Validated record object (recordSchema): optional id, optional path,
cells as (columnId, value) pairs. -/
structure RecordArg where
  id : Option String
  path : Option String
  cells : List (String × String)
deriving DecidableEq, Repr

/-- JSON object a validated record parses back to: absent optional keys
are absent, key order follows the schema shape (id, path, cells). -/
def recordToJson (r : RecordArg) : JsonVal :=
  .obj (([("id", r.id.map .str), ("path", r.path.map .str),
          ("cells", some (.arr (r.cells.map (fun c =>
            .obj [("columnId", .str c.1), ("value", .str c.2)]))))]
         : List (String × Option JsonVal)).filterMap
    (fun kv => kv.2.map (fun v => (kv.1, v))))

/-- getProjects (line 191): GET /projects. -/
def getProjects : HttpRequest :=
  ⟨"GET", API_BASE ++ "/projects", none⟩

/-- getProject (line 202): GET /projects/id. -/
def getProject (id : Int) : HttpRequest :=
  ⟨"GET", API_BASE ++ "/projects/" ++ intToString id, none⟩

/-- getDatabases (line 213): GET /databases, with the projectId query
parameter appended through url.searchParams only when the argument is
present. -/
def getDatabases (projectId : Option Int) : HttpRequest :=
  match projectId with
  | none => ⟨"GET", API_BASE ++ "/databases", none⟩
  | some p =>
    ⟨"GET", API_BASE ++ "/databases" ++ "?projectId=" ++ formUrlEncode (intToString p), none⟩

/-- getDatabase (line 230): GET /databases/id. -/
def getDatabase (id : String) : HttpRequest :=
  ⟨"GET", API_BASE ++ "/databases/" ++ id, none⟩

/-- getGrid (line 241): GET /grids/id. -/
def getGrid (id : String) : HttpRequest :=
  ⟨"GET", API_BASE ++ "/grids/" ++ id, none⟩

/-- createGrid (line 252): POST /grids?dbId=databaseId with body
built from the destructured name only. -/
def createGrid (databaseId name : String) : HttpRequest :=
  ⟨"POST", API_BASE ++ "/grids?dbId=" ++ databaseId,
   some (jsonStringify (.obj [("name", .str name)]))⟩

/-- updateGrid (line 267): PATCH /grids/gridId with body
JSON.stringify of the name and metadata object literal; an absent
metadata is the undefined value, dropped by JSON.stringify. -/
def updateGrid (gridId name : String) (metadata : Option (List (String × JsonVal))) : HttpRequest :=
  ⟨"PATCH", API_BASE ++ "/grids/" ++ gridId,
   some (jsonStringifyObjU
     [("name", some (.str name)), ("metadata", metadata.map JsonVal.obj)])⟩

/-- deleteGrid request (line 283): DELETE /grids/gridId. -/
def deleteGrid (gridId : String) : HttpRequest :=
  ⟨"DELETE", API_BASE ++ "/grids/" ++ gridId, none⟩

/-- Return value of every delete-style function: `true` exactly on the
no-content status 204, and JavaScript `undefined` (here `none`) on any
other response. -/
def deleteResult (resp : HttpResponse) : Option Bool :=
  if resp.status = 204 then some true else none

/-- Truthiness of a delete-style return value, as the ternary in each
delete case of the CallTool handler evaluates it. -/
def truthy (v : Option Bool) : Bool :=
  match v with
  | some b => b
  | none => false

/-- getView (line 296): GET /views/id. -/
def getView (id : String) : HttpRequest :=
  ⟨"GET", API_BASE ++ "/views/" ++ id, none⟩

/-- createView (line 307): POST /views with body of name, gridId and
the optional columns list (dropped by JSON.stringify when absent). -/
def createView (name gridId : String) (columns : Option (List ColumnArg)) : HttpRequest :=
  ⟨"POST", API_BASE ++ "/views",
   some (jsonStringifyObjU
     [("name", some (.str name)), ("gridId", some (.str gridId)),
      ("columns", columns.map columnsToJson)])⟩

/-- getColumn (line 324): GET /views/viewId/columns/columnId. -/
def getColumn (viewId columnId : String) : HttpRequest :=
  ⟨"GET", API_BASE ++ "/views/" ++ viewId ++ "/columns/" ++ columnId, none⟩

/-- createColumn (line 339): POST /views/viewId/columns with body of the
destructured name and type only (the optional id field is never read). -/
def createColumn (viewId name type : String) : HttpRequest :=
  ⟨"POST", API_BASE ++ "/views/" ++ viewId ++ "/columns",
   some (jsonStringify (.obj [("name", .str name), ("type", .str type)]))⟩

/-- deleteColumn request (line 355): DELETE /views/viewId/columns/columnId. -/
def deleteColumn (viewId columnId : String) : HttpRequest :=
  ⟨"DELETE", API_BASE ++ "/views/" ++ viewId ++ "/columns/" ++ columnId, none⟩

/-- getDependencies (line 373): GET /views/viewId/dependencies. -/
def getDependencies (viewId : String) : HttpRequest :=
  ⟨"GET", API_BASE ++ "/views/" ++ viewId ++ "/dependencies", none⟩

/-- getDependency (line 384): GET /views/viewId/dependencies/dependencyId. -/
def getDependency (viewId dependencyId : String) : HttpRequest :=
  ⟨"GET", API_BASE ++ "/views/" ++ viewId ++ "/dependencies/" ++ dependencyId, none⟩

/-- deleteDependency request (line 399). -/
def deleteDependency (viewId dependencyId : String) : HttpRequest :=
  ⟨"DELETE", API_BASE ++ "/views/" ++ viewId ++ "/dependencies/" ++ dependencyId, none⟩

/-- getRecords (line 417): GET /views/viewId/records with query
parameters pushed in order columnIds, page, sort.  The columnIds value
is interpolated with a template literal, which stringifies a JS array by
joining its elements with commas; page and sort go through
encodeURIComponent(JSON.stringify(...)). -/
def getRecords (viewId : String) (columnIds : Option (List String))
    (page : Option Page) (sort : Option (List (String × String))) : HttpRequest :=
  let qp0 : List String := []
  let qp1 := match columnIds with
    | some cs => qp0 ++ ["columnIds=" ++ String.intercalate "," cs]
    | none => qp0
  let qp2 := match page with
    | some p => qp1 ++ ["page=" ++ encodeURIComponent (jsonStringify (pageToJson p))]
    | none => qp1
  let qp3 := match sort with
    | some s => qp2 ++ ["sort=" ++ encodeURIComponent (jsonStringify (sortToJson s))]
    | none => qp2
  let queryString := if qp3.length > 0 then "?" ++ String.intercalate "&" qp3 else ""
  ⟨"GET", API_BASE ++ "/views/" ++ viewId ++ "/records" ++ queryString, none⟩

/-- addRecords (line 446): POST /views/viewId/records with the records
array itself as the body. -/
def addRecords (viewId : String) (records : List RecordArg) : HttpRequest :=
  ⟨"POST", API_BASE ++ "/views/" ++ viewId ++ "/records",
   some (jsonStringify (.arr (records.map recordToJson)))⟩

/-- deleteRecords request (line 459): DELETE /views/viewId/records with
body of the ids list. -/
def deleteRecords (viewId : String) (ids : List String) : HttpRequest :=
  ⟨"DELETE", API_BASE ++ "/views/" ++ viewId ++ "/records",
   some (jsonStringify (.obj [("ids", .arr (ids.map .str))]))⟩

/-- getRecordHistory (line 477): GET
/views/viewId/records/recordId/histories with an optional page query. -/
def getRecordHistory (viewId recordId : String) (page : Option Page) : HttpRequest :=
  let queryParam := match page with
    | some p => "?page=" ++ encodeURIComponent (jsonStringify (pageToJson p))
    | none => ""
  ⟨"GET", API_BASE ++ "/views/" ++ viewId ++ "/records/" ++ recordId ++
    "/histories" ++ queryParam, none⟩

/-! ## The CallTool dispatcher (src/index.ts lines 602-846) -/

/-- A tool invocation result: pretty-printed JSON content for the
JSON-returning tools, or one of the fixed delete sentences. -/
inductive ToolOutput where
  | json (v : JsonVal)
  | text (s : String)

/-- Extraction of a validated string field (defined on validated bags;
the fallback is unreachable after a successful parse). -/
def getStrD (bag : List (String × JsonVal)) (k : String) : String :=
  match lookupField bag k with
  | some (.str s) => s
  | _ => ""

/-- Extraction of a validated required number field. -/
def getIntD (bag : List (String × JsonVal)) (k : String) : Int :=
  match lookupField bag k with
  | some (.num n) => n
  | _ => 0

/-- Extraction of a validated optional number field. -/
def getOptInt (bag : List (String × JsonVal)) (k : String) : Option Int :=
  match lookupField bag k with
  | some (.num n) => some n
  | _ => none

/-- Extraction of a validated optional metadata object. -/
def getOptObj (bag : List (String × JsonVal)) (k : String) : Option (List (String × JsonVal)) :=
  match lookupField bag k with
  | some (.obj kvs) => some kvs
  | _ => none

/-- String content of a JSON value, for validated string array elements. -/
def asStr (v : JsonVal) : Option String :=
  match v with
  | .str s => some s
  | _ => none

/-- Extraction of a validated required string array field. -/
def getStrListD (bag : List (String × JsonVal)) (k : String) : List String :=
  match lookupField bag k with
  | some (.arr xs) => xs.filterMap asStr
  | _ => []

/-- Extraction of a validated optional string array field. -/
def getOptStrList (bag : List (String × JsonVal)) (k : String) : Option (List String) :=
  match lookupField bag k with
  | some (.arr xs) => some (xs.filterMap asStr)
  | _ => none

/-- Extraction of a validated optional page field. -/
def getOptPage (bag : List (String × JsonVal)) (k : String) : Option Page :=
  match lookupField bag k with
  | some (.obj kvs) =>
    some ⟨(match lookupField kvs "offset" with | some (.num n) => n | _ => 0),
          (match lookupField kvs "limit" with | some (.num n) => n | _ => 0)⟩
  | _ => none

/-- Direction string of a validated sort value. -/
def asDir (v : JsonVal) : String :=
  match v with
  | .str s => s
  | _ => ""

/-- Extraction of a validated optional sort field. -/
def getOptSort (bag : List (String × JsonVal)) (k : String) : Option (List (String × String)) :=
  match lookupField bag k with
  | some (.obj kvs) => some (kvs.map (fun kv => (kv.1, asDir kv.2)))
  | _ => none

/-- Column argument of a validated columns array element. -/
def asColumnArg (v : JsonVal) : ColumnArg :=
  match v with
  | .obj kvs =>
    ⟨(match lookupField kvs "id" with | some (.str s) => s | _ => ""),
     (match lookupField kvs "editable" with | some (.bool b) => b | _ => false)⟩
  | _ => ⟨"", false⟩

/-- Extraction of a validated optional columns array field. -/
def getOptColumns (bag : List (String × JsonVal)) (k : String) : Option (List ColumnArg) :=
  match lookupField bag k with
  | some (.arr xs) => some (xs.map asColumnArg)
  | _ => none

/-- Cell pair of a validated cells array element. -/
def asCellArg (v : JsonVal) : String × String :=
  match v with
  | .obj kvs =>
    ((match lookupField kvs "columnId" with | some (.str s) => s | _ => ""),
     (match lookupField kvs "value" with | some (.str s) => s | _ => ""))
  | _ => ("", "")

/-- Record argument of a validated records array element. -/
def asRecordArg (v : JsonVal) : RecordArg :=
  match v with
  | .obj kvs =>
    ⟨(match lookupField kvs "id" with | some (.str s) => some s | _ => none),
     (match lookupField kvs "path" with | some (.str s) => some s | _ => none),
     (match lookupField kvs "cells" with | some (.arr cs) => cs.map asCellArg | _ => [])⟩
  | _ => ⟨none, none, []⟩

/-- Extraction of a validated records array field. -/
def getRecordsArg (bag : List (String × JsonVal)) (k : String) : List RecordArg :=
  match lookupField bag k with
  | some (.arr xs) => xs.map asRecordArg
  | _ => []

/-- Shared delete-case body: issue the delete request, turn exactly the
no-content response into the success sentence through the boolean-like
return value of the delete function. -/
def deleteCase (net : Net) (req : HttpRequest) (succMsg failMsg : String) :
    ToolOutput × List HttpRequest :=
  let success := deleteResult (net req)
  (.text (if truthy success then succMsg else failMsg), [req])

/-- Shared JSON-returning case body: issue the request, wrap the parsed
response body. -/
def jsonCase (net : Net) (req : HttpRequest) : ToolOutput × List HttpRequest :=
  (.json (net req).body, [req])

/-- The switch body of the CallTool handler on a validated argument bag:
per tool, the issued request list and the wrapped result.  The default
arm is unreachable from handleCall (the registry lookup has already
succeeded). -/
def dispatch (net : Net) (name : String) (bag : List (String × JsonVal)) :
    ToolOutput × List HttpRequest :=
  match name with
  | "list_projects" => jsonCase net getProjects
  | "retrieve_project" => jsonCase net (getProject (getIntD bag "projectId"))
  | "list_databases" => jsonCase net (getDatabases (getOptInt bag "projectId"))
  | "retrieve_database" => jsonCase net (getDatabase (getStrD bag "databaseId"))
  | "retrieve_grid" => jsonCase net (getGrid (getStrD bag "gridId"))
  | "create_grid" =>
    jsonCase net (createGrid (getStrD bag "databaseId") (getStrD bag "name"))
  | "update_grid" =>
    jsonCase net (updateGrid (getStrD bag "gridId") (getStrD bag "name")
      (getOptObj bag "metadata"))
  | "delete_grid" =>
    deleteCase net (deleteGrid (getStrD bag "gridId"))
      "Grid successfully deleted." "Failed to delete grid."
  | "retrieve_view" => jsonCase net (getView (getStrD bag "viewId"))
  | "create_view" =>
    jsonCase net (createView (getStrD bag "name") (getStrD bag "gridId")
      (getOptColumns bag "columns"))
  | "retrieve_column" =>
    jsonCase net (getColumn (getStrD bag "viewId") (getStrD bag "columnId"))
  | "create_column" =>
    jsonCase net (createColumn (getStrD bag "viewId") (getStrD bag "name")
      (getStrD bag "type"))
  | "delete_column" =>
    deleteCase net (deleteColumn (getStrD bag "viewId") (getStrD bag "columnId"))
      "Column successfully deleted." "Failed to delete column."
  | "list_dependencies" => jsonCase net (getDependencies (getStrD bag "viewId"))
  | "retrieve_dependency" =>
    jsonCase net (getDependency (getStrD bag "viewId") (getStrD bag "dependencyId"))
  | "delete_dependency" =>
    deleteCase net (deleteDependency (getStrD bag "viewId") (getStrD bag "dependencyId"))
      "Dependency successfully deleted." "Failed to delete dependency."
  | "list_records" =>
    jsonCase net (getRecords (getStrD bag "viewId") (getOptStrList bag "columnIds")
      (getOptPage bag "page") (getOptSort bag "sort"))
  | "add_records" =>
    jsonCase net (addRecords (getStrD bag "viewId") (getRecordsArg bag "records"))
  | "delete_records" =>
    deleteCase net (deleteRecords (getStrD bag "viewId") (getStrListD bag "ids"))
      "Record(s) successfully deleted." "Failed to delete record(s)."
  | "get_record_history" =>
    jsonCase net (getRecordHistory (getStrD bag "viewId") (getStrD bag "recordId")
      (getOptPage bag "page"))
  | _ => (.text "", [])

/-- The CallTool request handler (lines 602-846): look the tool name up
in the registry (the switch), throw the unknown-tool error from the
default arm, throw the invalid-input error from the catch block when the
zod parse fails, and otherwise run the tool's case.  Errors are Except
errors: the throw propagates to the serving framework, the loop keeps
serving. -/
def handleCall (net : Net) (name : String) (bag : List (String × JsonVal)) :
    Except String ToolOutput × List HttpRequest :=
  match runtimeValidation name with
  | none => (.error ("Unknown tool: " ++ name), [])
  | some rv =>
    match rv with
    | .noCheck =>
      let (out, reqs) := dispatch net name bag
      (.ok out, reqs)
    | .check fields =>
      let issues := objIssues fields bag
      if issues = [] then
        let (out, reqs) := dispatch net name bag
        (.ok out, reqs)
      else
        (.error ("Invalid input: " ++ renderIssues issues), [])

/-! ## Auxiliary notions used by the claim statements -/

/-- Is `pat` an initial segment of `l`? -/
def listPrefixAt : List Char → List Char → Bool
  | [], _ => true
  | _ :: _, [] => false
  | a :: as, b :: bs => a = b && listPrefixAt as bs

/-- Does `pat` occur as a contiguous substring of `l`? -/
def containsSub (l pat : List Char) : Bool :=
  match l with
  | [] => pat.isEmpty
  | _ :: rest => listPrefixAt pat l || containsSub rest pat

/-- Substring occurrence on strings. -/
def strContains (s pat : String) : Bool := containsSub s.data pat.data

/-- Pointwise character predicate on a string. -/
def strAll (p : Char → Bool) (s : String) : Bool := s.data.all p

/-- URL-safe characters: the RFC 3986 unreserved set. -/
def urlSafeChar (c : Char) : Bool :=
  c.isAlphanum || c = '-' || c = '.' || c = '_' || c = '~'

/-- Modelled from the spec: the request body the claim C2 prescribes for
create_grid — the full validated argument object minus the routing
databaseId, in schema field order, absent optionals dropped. -/
def createGridSpecBody (name : String) (templateGridId : Option String)
    (metadata : Option (List (String × JsonVal))) : String :=
  jsonStringifyObjU
    [("name", some (.str name)), ("templateGridId", templateGridId.map .str),
     ("metadata", metadata.map JsonVal.obj)]

/-- Modelled from the spec: the columnIds query parameter the claim C6
prescribes — the URL-encoded JSON serialization of the array. -/
def columnIdsClaimParam (cs : List String) : String :=
  "columnIds=" ++ encodeURIComponent (jsonStringify (.arr (cs.map .str)))

/-- The comma-joined columnIds parameter the code actually produces. -/
def columnIdsCodeParam (cs : List String) : String :=
  "columnIds=" ++ String.intercalate "," cs

/-- Optional query-parameter contribution: one rendered parameter when
the field is present, nothing when absent. -/
def optPart (o : Option α) (f : α → String) : List String :=
  match o with
  | none => []
  | some a => [f a]

/-- Query-string rendering of a parameter list. -/
def renderQuery (ps : List String) : String :=
  match ps with
  | [] => ""
  | _ => "?" ++ String.intercalate "&" ps

/-! ## Helper lemmas -/

theorem digitChar_urlSafe (k : Nat) : urlSafeChar (digitChar k) = true :=
  match k with
  | 0 | 1 | 2 | 3 | 4 | 5 | 6 | 7 | 8 | 9 => by decide
  | _ + 10 => by rfl

theorem digitChar_formSafe (k : Nat) : formSafeChar (digitChar k) = true :=
  match k with
  | 0 | 1 | 2 | 3 | 4 | 5 | 6 | 7 | 8 | 9 => by decide
  | _ + 10 => by rfl

theorem natCharsAux_all (p : Char → Bool) (hp : ∀ k, p (digitChar k) = true) :
    ∀ fuel n, (natCharsAux fuel n).all p = true := by
  intro fuel
  induction fuel with
  | zero => intro n; rfl
  | succ fuel ih =>
    intro n
    rw [natCharsAux]
    split
    · simp [hp]
    · rw [List.all_append]
      simp [hp, ih (n / 10)]

theorem natChars_all (p : Char → Bool) (hp : ∀ k, p (digitChar k) = true) (n : Nat) :
    (natChars n).all p = true := natCharsAux_all p hp (n + 1) n

theorem intToString_urlSafe (i : Int) : strAll urlSafeChar (intToString i) = true := by
  unfold intToString strAll natToString
  split
  · rw [String.data_append]
    rw [List.all_append]
    simp [natChars_all urlSafeChar digitChar_urlSafe]
    decide
  · exact natChars_all urlSafeChar digitChar_urlSafe _

theorem intToString_formSafe (i : Int) : strAll formSafeChar (intToString i) = true := by
  unfold intToString strAll natToString
  split
  · rw [String.data_append]
    rw [List.all_append]
    simp [natChars_all formSafeChar digitChar_formSafe]
    decide
  · exact natChars_all formSafeChar digitChar_formSafe _

theorem foldl_append_data (l : List String) (acc : String) :
    (l.foldl (fun a b => a ++ b) acc).data = acc.data ++ (l.map String.data).flatten := by
  induction l generalizing acc with
  | nil => simp
  | cons a rest ih => simp [List.foldl_cons, ih, String.data_append]

theorem join_data (l : List String) : (String.join l).data = (l.map String.data).flatten := by
  show (l.foldl (fun a b => a ++ b) "").data = _
  rw [foldl_append_data]
  rfl

theorem joinSingletons (l : List Char) : (l.map (fun c => [c])).flatten = l := by
  induction l with
  | nil => rfl
  | cons c rest ih => simp [ih]

theorem join_map_singleton (l : List Char) :
    String.join (l.map String.singleton) = String.mk l := by
  apply String.ext
  rw [join_data]
  have h : ∀ c : Char, (String.singleton c).data = [c] := by
    intro c
    simp [String.singleton, String.data_push]
  rw [List.map_map]
  have h2 : l.map (String.data ∘ String.singleton) = l.map (fun c => [c]) :=
    List.map_congr_left (fun c _ => h c)
  rw [h2, joinSingletons]

theorem formUrlEncode_of_safe (s : String) (h : strAll formSafeChar s = true) :
    formUrlEncode s = s := by
  unfold formUrlEncode
  unfold strAll at h
  have : s.data.map (fun c =>
      if formSafeChar c then String.singleton c
      else if c = ' ' then "+"
      else String.join ((utf8Bytes c.toNat).map pctByte)) = s.data.map String.singleton := by
    apply List.map_congr_left
    intro c hc
    have := List.all_eq_true.mp h c hc
    simp [this]
  rw [this, join_map_singleton]

theorem allStr_map (ids : List String) : (ids.map JsonVal.str).all isStrVal = true := by
  induction ids with
  | nil => rfl
  | cons a rest ih => simp [isStrVal, ih]

/-- If a name is not a registered tool name, the registry lookup of the
CallTool switch falls through to the default arm. -/
theorem runtimeValidation_eq_none (name : String) (h : name ∉ toolNames) :
    runtimeValidation name = none := by
  simp only [toolNames, advertisedCatalog, List.map_cons, List.map_nil, List.mem_cons,
    List.not_mem_nil, or_false, not_or] at h
  obtain ⟨h1, h2, h3, h4, h5, h6, h7, h8, h9, h10, h11, h12, h13, h14, h15, h16, h17,
    h18, h19, h20⟩ := h
  unfold runtimeValidation runtimeRegistry
  simp [lookupReg, h1, h2, h3, h4, h5, h6, h7, h8, h9, h10, h11, h12, h13, h14, h15,
    h16, h17, h18, h19, h20]

/-- C1: for every delete-style tool (delete_grid, delete_column,
delete_dependency, delete_records) and every remote response: the
no-content status 204 yields the fixed "successfully deleted." sentence
and any other status yields the fixed "Failed to delete" sentence, as an
ordinary result rather than a raised error; the distinction is carried
only in the boolean-like value returned by the delete function, which is
`some true` exactly on status 204 and undefined otherwise. -/
theorem delete_tools_status_boundary
    (s : Nat) (b : JsonVal) (g v c vd d vr : String) (ids : List String) :
    (handleCall (fun _ => ⟨s, b⟩) "delete_grid" [("gridId", .str g)]).1 =
      .ok (.text (if s = 204 then "Grid successfully deleted."
        else "Failed to delete grid.")) ∧
    (handleCall (fun _ => ⟨s, b⟩) "delete_column"
        [("viewId", .str v), ("columnId", .str c)]).1 =
      .ok (.text (if s = 204 then "Column successfully deleted."
        else "Failed to delete column.")) ∧
    (handleCall (fun _ => ⟨s, b⟩) "delete_dependency"
        [("viewId", .str vd), ("dependencyId", .str d)]).1 =
      .ok (.text (if s = 204 then "Dependency successfully deleted."
        else "Failed to delete dependency.")) ∧
    (handleCall (fun _ => ⟨s, b⟩) "delete_records"
        [("viewId", .str vr), ("ids", .arr (ids.map .str))]).1 =
      .ok (.text (if s = 204 then "Record(s) successfully deleted."
        else "Failed to delete record(s).")) ∧
    (deleteResult ⟨s, b⟩ = some true ↔ s = 204) ∧
    (deleteResult ⟨s, b⟩ = none ↔ s ≠ 204) := by
  refine ⟨?_, ?_, ?_, ?_, ?_, ?_⟩ <;>
    by_cases h : s = 204 <;>
      simp [handleCall, runtimeValidation, runtimeRegistry, lookupReg, objIssues,
        fieldOk, lookupField, gridIdSchema, viewIdSchema, columnIdSchema,
        dependencyIdSchema, viewColumnSchema, viewDependencySchema,
        deleteRecordsSchema, valAccepts, isStrVal, allStr_map, dispatch, deleteCase,
        deleteResult, truthy, h, getStrD, getStrListD]

/-- C2 (counterexample): the claim that create_grid serializes the full
validated argument object minus the routing databaseId is false at the
concrete invocation with databaseId db1, name G, templateGridId t1 and
metadata of one key: the single issued request carries only the name
field, not the spec-prescribed full body. -/
theorem create_grid_body_counterexample :
    (handleCall (fun _ => ⟨200, .null⟩) "create_grid"
        [("databaseId", .str "db1"), ("name", .str "G"),
         ("templateGridId", .str "t1"), ("metadata", .obj [("a", .num 1)])]).2 =
      [createGrid "db1" "G"] ∧
    (createGrid "db1" "G").body = some "\x7b\"name\":\"G\"\x7d" ∧
    createGridSpecBody "G" (some "t1") (some [("a", .num 1)]) =
      "\x7b\"name\":\"G\",\"templateGridId\":\"t1\",\"metadata\":\x7b\"a\":1\x7d\x7d" ∧
    (createGrid "db1" "G").body ≠
      some (createGridSpecBody "G" (some "t1") (some [("a", .num 1)])) := by
  refine ⟨rfl, by decide, by decide, by decide⟩

/-- C2 (amended): the bodies the create/update tools actually send:
create_grid sends only the name, discarding the validated templateGridId
and metadata; update_grid sends name plus metadata with an absent
metadata dropped; create_view sends name, gridId and columns with absent
columns dropped; create_column sends only name and type, discarding the
validated optional id. -/
theorem create_update_request_bodies (net : Net) (db n t i : String)
    (m : List (String × JsonVal)) (g nm : String) (cl : List ColumnArg)
    (v ty : String) :
    handleCall net "create_grid"
        [("databaseId", .str db), ("name", .str n),
         ("templateGridId", .str t), ("metadata", .obj m)] =
      (.ok (.json (net (createGrid db n)).body), [createGrid db n]) ∧
    createGrid db n = ⟨"POST", API_BASE ++ "/grids?dbId=" ++ db,
      some (jsonStringify (.obj [("name", .str n)]))⟩ ∧
    updateGrid g nm (some m) = ⟨"PATCH", API_BASE ++ "/grids/" ++ g,
      some (jsonStringify (.obj [("name", .str nm), ("metadata", .obj m)]))⟩ ∧
    updateGrid g nm none = ⟨"PATCH", API_BASE ++ "/grids/" ++ g,
      some (jsonStringify (.obj [("name", .str nm)]))⟩ ∧
    createView nm g (some cl) = ⟨"POST", API_BASE ++ "/views",
      some (jsonStringify (.obj [("name", .str nm), ("gridId", .str g),
        ("columns", columnsToJson cl)]))⟩ ∧
    createView nm g none = ⟨"POST", API_BASE ++ "/views",
      some (jsonStringify (.obj [("name", .str nm), ("gridId", .str g)]))⟩ ∧
    createColumn v nm ty = ⟨"POST", API_BASE ++ "/views/" ++ v ++ "/columns",
      some (jsonStringify (.obj [("name", .str nm), ("type", .str ty)]))⟩ ∧
    handleCall net "create_column"
        [("viewId", .str v), ("id", .str i), ("name", .str nm),
         ("type", .str "boolean")] =
      (.ok (.json (net (createColumn v nm "boolean")).body),
       [createColumn v nm "boolean"]) :=
  ⟨rfl, rfl, rfl, rfl, rfl, rfl, rfl, rfl⟩

/-- C3: for every tool in the advertised catalog, the runtime validator
the CallTool switch applies to that name exists and accepts exactly the
argument bags the advertised schema accepts — in particular for
list_databases, where the catalog advertises optionalProjectIdSchema
while the switch parses with projectIdSchema.partial(). -/
theorem advertised_matches_runtime (p : String × List ZField)
    (hp : p ∈ advertisedCatalog) (bag : List (String × JsonVal)) :
    (runtimeValidation p.1).map (fun rv => runtimeAccepts rv bag) =
      some (bagAccepts p.2 bag) := by
  fin_cases hp <;> rfl

/-- C3 (witness): the list_databases schemas evaluated at a concrete
bag. -/
theorem advertised_matches_runtime_witness :
    (runtimeValidation "list_databases").map
        (fun rv => runtimeAccepts rv [("projectId", .num 7)]) =
      some (bagAccepts optionalProjectIdSchema [("projectId", .num 7)]) :=
  advertised_matches_runtime ("list_databases", optionalProjectIdSchema)
    (by decide) [("projectId", .num 7)]

/-- C4: whenever the runtime schema of a tool rejects a bag, the
invocation fails with the single invalid-input error carrying the
rendered issue list, no request is issued, and every violated field
appears in that issue list with its reason — not only the first. -/
theorem validation_error_enumerates_all (net : Net) (name : String)
    (fields : List ZField) (bag : List (String × JsonVal))
    (hval : runtimeValidation name = some (.check fields))
    (hne : objIssues fields bag ≠ []) :
    handleCall net name bag =
      (.error ("Invalid input: " ++ renderIssues (objIssues fields bag)), []) ∧
    ∀ f ∈ fields, fieldOk bag f = false →
      ZIssue.mk f.name (fieldReason bag f) ∈ objIssues fields bag := by
  constructor
  · unfold handleCall
    rw [hval]
    simp only [if_neg hne]
  · intro f hf hfo
    apply List.mem_filterMap.mpr
    exact ⟨f, hf, by simp [hfo]⟩

/-- C4 (witness): a create_column bag violating three fields at once
(missing viewId, missing name, type outside the enumeration) is rejected
with the enumerating invalid-input error. -/
theorem validation_error_enumerates_all_witness :
    handleCall (fun _ => ⟨200, .null⟩) "create_column" [("type", .str "nope")] =
      (.error ("Invalid input: " ++
        renderIssues (objIssues createColumnSchema [("type", .str "nope")])), []) :=
  (validation_error_enumerates_all (fun _ => ⟨200, .null⟩) "create_column"
    createColumnSchema [("type", .str "nope")] (by decide) (by decide)).1

/-- C5: a well-formed update_grid invocation with grid id g, name n and
metadata m issues exactly one request, a PATCH to /grids/g whose body is
the JSON object of exactly the name and metadata keys; at the claim's
example input the body is the literal claimed string. -/
theorem update_grid_request_mapping (net : Net) (g n : String)
    (m : List (String × JsonVal)) :
    handleCall net "update_grid"
        [("gridId", .str g), ("name", .str n), ("metadata", .obj m)] =
      (.ok (.json (net (updateGrid g n (some m))).body), [updateGrid g n (some m)]) ∧
    updateGrid g n (some m) = ⟨"PATCH", API_BASE ++ "/grids/" ++ g,
      some (jsonStringify (.obj [("name", .str n), ("metadata", .obj m)]))⟩ ∧
    updateGrid "g1" "Sheet" (some [("a", .num 1)]) =
      ⟨"PATCH", "https://api.gridly.com/v1/grids/g1",
       some "\x7b\"name\":\"Sheet\",\"metadata\":\x7b\"a\":1\x7d\x7d"⟩ :=
  ⟨rfl, rfl, by decide⟩

/-- C6 (counterexample): a present columnIds array is not serialized as
a URL-encoded JSON string: at viewId v and columnIds [c1, c2] the code
joins the ids with a comma, which differs from the claimed URL-encoded
JSON serialization of the array. -/
theorem list_records_columnIds_counterexample :
    (getRecords "v" (some ["c1", "c2"]) none none).url =
      "https://api.gridly.com/v1/views/v/records?columnIds=c1,c2" ∧
    columnIdsClaimParam ["c1", "c2"] = "columnIds=%5B%22c1%22%2C%22c2%22%5D" ∧
    columnIdsCodeParam ["c1", "c2"] ≠ columnIdsClaimParam ["c1", "c2"] ∧
    (getRecords "v" (some ["c1", "c2"]) none none).url ≠
      API_BASE ++ "/views/v/records?" ++ columnIdsClaimParam ["c1", "c2"] := by
  refine ⟨by decide, by decide, by decide, by decide⟩

/-- C6 (amended): each optional list_records field contributes its query
parameter exactly when present; page and sort are serialized as
URL-encoded JSON strings, while a present columnIds array contributes
its elements joined by commas (JavaScript array stringification), not
URL-encoded JSON. -/
theorem list_records_query_mapping (v : String) (cs : Option (List String))
    (p : Option Page) (s : Option (List (String × String))) :
    getRecords v cs p s =
      ⟨"GET", API_BASE ++ "/views/" ++ v ++ "/records" ++
        renderQuery (optPart cs columnIdsCodeParam ++
          optPart p (fun pg => "page=" ++ encodeURIComponent (jsonStringify (pageToJson pg))) ++
          optPart s (fun so => "sort=" ++ encodeURIComponent (jsonStringify (sortToJson so)))),
       none⟩ := by
  rcases cs with _ | cs <;> rcases p with _ | p <;> rcases s with _ | s <;> rfl

/-- C7 (counterexample): a pagination object with a negative offset is
accepted by validation (pageSchema puts no sign or integrality bound on
its numbers), contradicting the claim that it is a validation error: a
list_records bag carrying offset -1 produces no validation issue at
all. -/
theorem negative_page_accepted :
    objIssues listRecordsSchema
      [("viewId", .str "v"),
       ("page", .obj [("offset", .num (-1)), ("limit", .num 10)])] = [] ∧
    valAccepts .zpage (.obj [("offset", .num (-1)), ("limit", .num 10)]) = true ∧
    (-1 : Int) < 0 := by
  refine ⟨by decide, by decide, by decide⟩

/-- A field is numeric exactly when some integer sits under the key. -/
theorem numField_iff (kvs : List (String × JsonVal)) (k : String) :
    numField kvs k = true ↔ ∃ n : Int, lookupField kvs k = some (.num n) := by
  unfold numField
  rcases h : lookupField kvs k with _ | v
  · simp
  · cases v <;> simp

/-- A sort direction value is accepted exactly when it is one of the two
literals. -/
theorem sortDirOk_iff (v : JsonVal) :
    sortDirOk v = true ↔ v = .str "asc" ∨ v = .str "desc" := by
  cases v <;> simp [sortDirOk]

/-- C7 (amended): validation accepts a pagination object exactly when
offset and limit are both present and numeric — with no non-negativity
or integrality constraint — and accepts a sort specification exactly
when every value is one of the two directions asc/desc. -/
theorem page_sort_validation (v : JsonVal) :
    (valAccepts .zpage v = true ↔ ∃ kvs, v = .obj kvs ∧
      (∃ o : Int, lookupField kvs "offset" = some (.num o)) ∧
      (∃ l : Int, lookupField kvs "limit" = some (.num l))) ∧
    (valAccepts .zsort v = true ↔ ∃ kvs, v = .obj kvs ∧
      ∀ kv ∈ kvs, kv.2 = .str "asc" ∨ kv.2 = .str "desc") := by
  constructor
  · cases v <;> simp [valAccepts, numField_iff]
  · cases v <;> simp [valAccepts, List.all_eq_true, sortDirOk_iff]

/-- C8: a list_databases request without a project id contains no
projectId query parameter anywhere in its URL; with a project id the URL
is the base databases URL followed by the projectId parameter, whose
value (the decimal rendering the form serializer leaves untouched)
consists solely of URL-safe characters. -/
theorem list_databases_query_param :
    strContains (getDatabases none).url "projectId" = false ∧
    ∀ p : Int, getDatabases (some p) =
        ⟨"GET", API_BASE ++ "/databases?projectId=" ++ intToString p, none⟩ ∧
      strAll urlSafeChar (intToString p) = true := by
  constructor
  · decide
  · intro p
    constructor
    · show (⟨"GET", API_BASE ++ "/databases" ++ "?projectId=" ++
          formUrlEncode (intToString p), none⟩ : HttpRequest) = _
      rw [formUrlEncode_of_safe _ (intToString_formSafe p)]
      rw [show API_BASE ++ "/databases" ++ "?projectId=" =
        API_BASE ++ "/databases?projectId=" from by decide]
    · exact intToString_urlSafe p

/-- C9: invoking a tool name outside the registry fails with the
unknown-tool error naming the offending tool, issues no outbound
request, and — the handler being a pure function of the name and bag —
leaves every subsequent call unaffected. -/
theorem unknown_tool_rejected (net : Net) (name : String)
    (bag : List (String × JsonVal)) (h : name ∉ toolNames) :
    handleCall net name bag = (.error ("Unknown tool: " ++ name), []) := by
  unfold handleCall
  rw [runtimeValidation_eq_none name h]

/-- C9 (witness): the name frobnicate is not registered and is rejected
with the error identifying it. -/
theorem unknown_tool_rejected_witness :
    handleCall (fun _ => ⟨200, .null⟩) "frobnicate" [] =
      (.error "Unknown tool: frobnicate", []) :=
  unknown_tool_rejected (fun _ => ⟨200, .null⟩) "frobnicate" [] (by decide)

/-- C10: a well-formed update_grid invocation without the optional
metadata issues exactly one PATCH request whose JSON body holds only the
name key — the absent optional field is dropped by the serializer rather
than sent as null — as the concrete literal body shows. -/
theorem update_grid_absent_metadata (net : Net) (g n : String) :
    handleCall net "update_grid" [("gridId", .str g), ("name", .str n)] =
      (.ok (.json (net (updateGrid g n none)).body), [updateGrid g n none]) ∧
    updateGrid g n none = ⟨"PATCH", API_BASE ++ "/grids/" ++ g,
      some (jsonStringify (.obj [("name", .str n)]))⟩ ∧
    updateGrid "g1" "Sheet" none =
      ⟨"PATCH", "https://api.gridly.com/v1/grids/g1",
       some "\x7b\"name\":\"Sheet\"\x7d"⟩ :=
  ⟨rfl, rfl, by decide⟩
